import Mathlib

/-!
# TrueFrame — verification of the edge layer and the analysis pipeline contract

Shallow embedding of the TrueFrame repository:
* the Node/Express edge server (`frontend/server.js`, both revisions present in
  the repository) that receives a multipart video upload, forwards it to the
  Python analysis backend and relays the result;
* the browser client (`frontend/public/script.js`, both revisions) that
  performs the pre-upload size check and renders results;
* the analysis backend's aggregation pipeline, which is not part of the
  checked-in sources and is therefore modelled from the specification.

Machine integers do not occur (sizes are `Nat`, scores are `ℚ`), fallible
operations return `Except`/`Option`, and the request handler is a pure
function from the request and the backend-call outcome to a trace recording
the HTTP response, how many backend calls were made, and which temporary
files were unlinked.
-/

namespace TrueFrame

/-- JSON values, as they appear in request/response bodies. -/
inductive Json where
  | null : Json
  | bool (b : Bool) : Json
  | num (q : ℚ) : Json
  | str (s : String) : Json
  | arr (elems : List Json) : Json
  | obj (fields : List (String × Json)) : Json

/-- Field lookup in a JSON object's field list (first match wins). -/
def lookupField : List (String × Json) → String → Option Json
  | [], _ => none
  | (k, v) :: rest, key => if k = key then some v else lookupField rest key

/-- JavaScript property access `x.key` on a JSON value: `undefined` (here
`none`) unless `x` is an object with the field. -/
def getField : Json → String → Option Json
  | .obj fields, key => lookupField fields key
  | _, _ => none

/-- JavaScript truthiness of a JSON value (`''`, `0`, `false`, `null` are
falsy; objects and arrays are always truthy). -/
def jsTruthy : Json → Bool
  | .null => false
  | .bool b => b
  | .num q => decide (q ≠ 0)
  | .str s => decide (s ≠ "")
  | .arr _ => true
  | .obj _ => true

/-- The `error` field of a response body, when it is a string. -/
def errorString (body : Json) : Option String :=
  match getField body "error" with
  | some (.str s) => some s
  | _ => none

/-! ## Edge server (`frontend/server.js`) -/

/-- A file stored by multer for the current request (`req.file`). -/
structure UploadedFile where
  originalname : String
  path : String
  size : Nat
  deriving DecidableEq

/-- The part of an Express request the `/upload` handler inspects. -/
structure UploadRequest where
  file : Option UploadedFile

/-- Outcome of the single `axios.post(PYTHON_API_URL, formData)` call:
a 2xx response with data, an error response (axios rejects for any status
outside 2xx, exposing `error.response`), no response at all
(`error.request`), or a failure while setting the request up
(`error.message`). -/
inductive BackendOutcome where
  | success (data : Json)
  | errorResponse (status : Nat) (data : Json)
  | noResponse (requestInfo : String)
  | setupError (message : String)

/-- An HTTP response sent to the client. -/
structure UploadResponse where
  status : Nat
  body : Json

/-- What one run of the `/upload` handler did: the response it sent, how many
backend calls it issued, and which stored files it passed to `fs.unlink`. -/
structure HandlerTrace where
  response : UploadResponse
  backendCalls : Nat
  unlinkedPaths : List String

/-- `'No video file was uploaded.'` (missing-file branch, both revisions). -/
def noFileMessage : String := "No video file was uploaded."

/-- `'The AI analysis engine is currently unavailable.'` (default error). -/
def unavailableMessage : String := "The AI analysis engine is currently unavailable."

/-- `'No response from the AI analysis engine. It may be offline.'`. -/
def noResponseMessage : String := "No response from the AI analysis engine. It may be offline."

/-- The template fallback `` `AI engine returned status ${status}.` ``. -/
def statusFallback (status : Nat) : String :=
  "AI engine returned status " ++ toString status ++ "."

/-- `error.response.data.error || fallback`: the backend-supplied error value
when present and truthy, otherwise the fallback string. -/
def backendErrorOrElse (data : Json) (fallback : String) : Json :=
  match getField data "error" with
  | some v => if jsTruthy v then v else .str fallback
  | none => .str fallback

/-- The `/upload` handler of the current `server.js` revision: reject a
missing file with 400; otherwise post the stored file to the backend once,
relay `response.data` on success, map failures in the `catch` block
(forwarding a backend error status verbatim, 500 otherwise), and always
`fs.unlink` the stored file in the `finally` block. -/
def handleUpload (req : UploadRequest) (outcome : BackendOutcome) : HandlerTrace :=
  match req.file with
  | none =>
    { response := { status := 400, body := .obj [("error", .str noFileMessage)] }
      backendCalls := 0
      unlinkedPaths := [] }
  | some file =>
    let response : UploadResponse :=
      match outcome with
      | .success data => { status := 200, body := data }
      | .errorResponse status data =>
        { status := status
          body := .obj [("error", backendErrorOrElse data (statusFallback status))] }
      | .noResponse _ =>
        { status := 500, body := .obj [("error", .str noResponseMessage)] }
      | .setupError _ =>
        { status := 500, body := .obj [("error", .str unavailableMessage)] }
    { response := response
      backendCalls := 1
      unlinkedPaths := [file.path] }

/-- The `/upload` handler of the earlier `server.js` revision: identical
missing-file and success paths, but every `catch` path answers 500 with
`error.response?.data?.error || 'The AI analysis engine is currently
unavailable.'`; the `finally` block likewise always unlinks the file. -/
def handleUploadV2 (req : UploadRequest) (outcome : BackendOutcome) : HandlerTrace :=
  match req.file with
  | none =>
    { response := { status := 400, body := .obj [("error", .str noFileMessage)] }
      backendCalls := 0
      unlinkedPaths := [] }
  | some file =>
    let response : UploadResponse :=
      match outcome with
      | .success data => { status := 200, body := data }
      | .errorResponse _ data =>
        { status := 500
          body := .obj [("error", backendErrorOrElse data unavailableMessage)] }
      | .noResponse _ =>
        { status := 500, body := .obj [("error", .str unavailableMessage)] }
      | .setupError _ =>
        { status := 500, body := .obj [("error", .str unavailableMessage)] }
    { response := response
      backendCalls := 1
      unlinkedPaths := [file.path] }

/-! ## Server startup (pre-flight checks) -/

/-- `server.js` pre-flight log line when `PYTHON_API_URL` is missing. -/
def fatalEnvMessage : String :=
  "FATAL ERROR: PYTHON_API_URL is not defined in the .env file."

/-- What the process does at startup: exit with a code after logging a fatal
message, or listen on a port with the given routes registered. -/
inductive StartupResult where
  | exited (code : Nat) (log : String)
  | listening (port : Nat) (pythonApiUrl : String) (routes : List String)

/-- Startup of `server.js`: `PORT = process.env.PORT || 3000`,
`PYTHON_API_URL = process.env.PYTHON_API_URL`; if the latter is not defined
the process logs a fatal error and calls `process.exit(1)` before any route
is registered or the server listens. -/
def startServer (envPort : Option Nat) (envPythonApiUrl : Option String) : StartupResult :=
  match envPythonApiUrl with
  | none => .exited 1 fatalEnvMessage
  | some url => .listening (envPort.getD 3000) url ["POST /upload"]

/-! ## Browser client (`frontend/public/script.js`) -/

/-- A `File` object as the client sees it. -/
structure ClientFile where
  name : String
  size : Nat
  deriving DecidableEq

/-- `100 * 1024 * 1024`, the client-side size limit. -/
def maxUploadBytes : Nat := 100 * 1024 * 1024

/-- What `startAnalysis` does with the chosen file before any network
activity: display an error and return, or issue the `/upload` request. -/
inductive ClientAction where
  | rejectedTooLarge (message : String)
  | uploadRequest (file : ClientFile)
  deriving DecidableEq

/-- `startAnalysis` (both `script.js` revisions): if
`file.size > 100 * 1024 * 1024` display `'File is too large. Maximum size is
100MB.'` and return without fetching, otherwise POST the file to
`/upload`. -/
def startAnalysis (file : ClientFile) : ClientAction :=
  if maxUploadBytes < file.size then
    .rejectedTooLarge "File is too large. Maximum size is 100MB."
  else
    .uploadRequest file

/-! ## Result rendering (`frontend/public/script.js`) -/

/-- One entry of the success result's `breakdown` list. -/
structure BreakdownItem where
  name : String
  tag : String
  deriving DecidableEq

/-- A parsed success result from the backend, as the client reads it:
`prediction`, `confidence`, and the optional `breakdown` list (`none` models
the field being absent/`undefined`). -/
structure SuccessResult where
  prediction : String
  confidence : ℚ
  breakdown : Option (List BreakdownItem)

/-- What the client shows for a success result: the verdict line, the
confidence value it displays, the CSS class added to the verdict box, and
the breakdown rows inserted into the list. -/
structure RenderedVerdict where
  verdictText : String
  confidenceShown : ℚ
  verdictCss : String
  breakdownRows : List (String × String)
  deriving DecidableEq

/-- `displaySuccess` (earlier `script.js` revision): verdict text from
`result.prediction`, confidence interpolated as-is, CSS class
`result.prediction.toLowerCase()`; the breakdown list is never touched. -/
def displaySuccess (r : SuccessResult) : RenderedVerdict :=
  { verdictText := if r.prediction = "FAKE" then "AI Generated" else "Likely REAL"
    confidenceShown := r.confidence
    verdictCss := r.prediction.toLower
    breakdownRows := [] }

/-- `parseFloat(x).toFixed(2)`: the displayed confidence rounded to two
decimal places. -/
def jsToFixed2 (q : ℚ) : ℚ := (round (q * 100) : ℤ) / 100

/-- The `TypeError` raised by `result.breakdown.forEach` when the result has
no `breakdown` field. -/
def breakdownTypeError : String :=
  "TypeError: cannot read properties of undefined (reading forEach)"

/-- `renderSuccess` (current `script.js` revision): verdict and confidence
come from `result.prediction` and `parseFloat(result.confidence).toFixed(2)`,
CSS class is `fake`/`real`; it then iterates `result.breakdown.forEach`
unconditionally, which throws a `TypeError` when the field is absent (the
exception propagates to `startAnalysis`'s catch, which renders the error
view instead). -/
def renderSuccess (r : SuccessResult) : Except String RenderedVerdict :=
  match r.breakdown with
  | none => .error breakdownTypeError
  | some items =>
    .ok { verdictText := if r.prediction = "FAKE" then "AI Generated" else "Likely REAL"
          confidenceShown := jsToFixed2 r.confidence
          verdictCss := if r.prediction = "FAKE" then "fake" else "real"
          breakdownRows := items.map fun it => (it.name, it.tag) }

/-! ## Analysis backend (modelled from the spec)

The Python backend (`backend/app.py`) is not among the checked-in sources;
its pipeline is modelled from the specification (§3, §4.4, §4.5, §7). -/

/-- Verdict label (spec §3). -/
inductive Label where
  | REAL
  | FAKE
  deriving DecidableEq

/-- Modelled from the spec: `FrameScore` (§3) — model output for one frame,
`frame_index` plus `p_fake ∈ [0,1]`. `backend/app.py` is not in the
checked-in sources. -/
structure FrameScore where
  frame_index : Nat
  p_fake : ℚ
  deriving DecidableEq

/-- Modelled from the spec: `Verdict` (§3) — final decision for the whole
video, a label and a confidence in `[0,100]`. -/
structure Verdict where
  label : Label
  confidence : ℚ
  deriving DecidableEq

/-- Clamp to `[0,100]` (spec §4.4). -/
def clamp0100 (q : ℚ) : ℚ := max 0 (min 100 q)

/-- Round to two decimal places (spec §4.4's fixed presentation precision). -/
def round2 (q : ℚ) : ℚ := (round (q * 100) : ℤ) / 100

/-- Modelled from the spec: `mean_p_fake = average(p_fake over all scores)`
(§4.4). -/
def mean_p_fake (scores : List FrameScore) : ℚ :=
  (scores.map FrameScore.p_fake).sum / scores.length

/-- Modelled from the spec: the Verdict Aggregator (§4.4) — label `FAKE` iff
`mean_p_fake ≥ 0.5` (the tie resolves to `FAKE`), confidence
`mean_p_fake*100` for `FAKE` and `(1-mean_p_fake)*100` for `REAL`, clamped to
`[0,100]` and rounded to two decimal places. -/
def aggregate (scores : List FrameScore) : Verdict :=
  if 1/2 ≤ mean_p_fake scores then
    { label := .FAKE, confidence := round2 (clamp0100 (mean_p_fake scores * 100)) }
  else
    { label := .REAL, confidence := round2 (clamp0100 ((1 - mean_p_fake scores) * 100)) }

/-- Modelled from the spec: the closed error taxonomy (§7). -/
inductive ErrorKind where
  | UnreadableVideo
  | NoDecodableFrames
  | ScoringFailed
  | Timeout
  | ModelUnavailable
  deriving DecidableEq

/-- Modelled from the spec: a decoded `Frame` (§3), identified here by its
sampling position. -/
structure Frame where
  index : Nat
  deriving DecidableEq

/-- Modelled from the spec: the Batched Scorer's output (§4.3) — one
`FrameScore` per frame, `frame_index` matching the frame's position. -/
def scoreFrames (score : Frame → ℚ) (frames : List Frame) : List FrameScore :=
  frames.enum.map fun p => { frame_index := p.1, p_fake := score p.2 }

/-- Modelled from the spec: the Pipeline Orchestrator (§4.5, §4.1, P1) —
`decoded = none` models a container that cannot be parsed
(`UnreadableVideo`); a decode that yields zero usable frames fails with
`NoDecodableFrames`; otherwise the frames are scored and aggregated into a
`Verdict`. -/
def runPipeline (decoded : Option (List Frame)) (score : Frame → ℚ) :
    Except ErrorKind Verdict :=
  match decoded with
  | none => .error .UnreadableVideo
  | some [] => .error .NoDecodableFrames
  | some frames => .ok (aggregate (scoreFrames score frames))

/-! ## Auxiliary predicates used in the statements -/

/-- The three literal error messages the current handler can produce on its
own (missing file, no backend response, setup failure). -/
def fixedEdgeMessages : List String :=
  [noFileMessage, noResponseMessage, unavailableMessage]

/-- An error value is sanitized when it is one of the handler's own literal
messages, the value the backend itself placed in its error response, or the
status-number fallback line — never anything derived from an internal
exception. -/
def sanitizedError (outcome : BackendOutcome) (e : Json) : Prop :=
  (∃ m, m ∈ fixedEdgeMessages ∧ e = .str m) ∨
  (∃ st data, outcome = .errorResponse st data ∧ getField data "error" = some e) ∨
  ∃ st, e = .str (statusFallback st)

/-- The backend's §6 failure contract: if its error response body carries an
`error` field at all, that field is a string. -/
def stringErrorField : BackendOutcome → Prop
  | .errorResponse _ data => ∀ v, getField data "error" = some v → ∃ s, v = Json.str s
  | _ => True

/-! ## Helper lemmas -/

theorem clamp0100_nonneg (q : ℚ) : 0 ≤ clamp0100 q := le_max_left 0 _

theorem clamp0100_le_100 (q : ℚ) : clamp0100 q ≤ 100 :=
  max_le (by norm_num) (min_le_left _ _)

theorem round2_nonneg {q : ℚ} (h : 0 ≤ q) : 0 ≤ round2 q := by
  unfold round2
  have hr : (0 : ℤ) ≤ round (q * 100) := by
    rw [round_eq]
    exact Int.floor_nonneg.mpr (by positivity)
  have : (0 : ℚ) ≤ (round (q * 100) : ℤ) := by exact_mod_cast hr
  positivity

theorem round2_le_100 {q : ℚ} (h : q ≤ 100) : round2 q ≤ 100 := by
  unfold round2
  have hlt : round (q * 100) < 10001 := by
    rw [round_eq]
    refine Int.floor_lt.mpr ?_
    push_cast
    nlinarith
  have hle : round (q * 100) ≤ 10000 := by omega
  rw [div_le_iff₀ (by norm_num : (0 : ℚ) < 100)]
  calc ((round (q * 100) : ℤ) : ℚ) ≤ (10000 : ℤ) := by exact_mod_cast hle
    _ = 100 * 100 := by norm_num

theorem scoreFrames_length (score : Frame → ℚ) (frames : List Frame) :
    (scoreFrames score frames).length = frames.length := by
  simp [scoreFrames]

theorem errorString_obj (v : Json) :
    errorString (Json.obj [("error", v)]) =
      match v with
      | .str s => some s
      | _ => none := by
  cases v <;> rfl

theorem backendErrorOrElse_cases (data : Json) (fallback : String) :
    (∃ v, getField data "error" = some v ∧ jsTruthy v = true ∧
        backendErrorOrElse data fallback = v) ∨
    backendErrorOrElse data fallback = .str fallback := by
  unfold backendErrorOrElse
  cases hd : getField data "error" with
  | none => exact .inr rfl
  | some v =>
    dsimp only
    by_cases ht : jsTruthy v = true
    · rw [if_pos ht]
      exact .inl ⟨v, rfl, ht, rfl⟩
    · rw [if_neg ht]
      exact .inr rfl

/-! ## Claims -/

/-- Claim C1: for every /upload request that supplied a video file, the
stored temporary file is passed to `fs.unlink` when the handler exits, on
every outcome of the backend call — success, backend error response, no
response, and setup failure alike — in both revisions of the handler (the
cleanup sits in the `finally` block). -/
theorem upload_cleanup_unconditional (req : UploadRequest) (outcome : BackendOutcome)
    (f : UploadedFile) (hf : req.file = some f) :
    (handleUpload req outcome).unlinkedPaths = [f.path] ∧
    (handleUploadV2 req outcome).unlinkedPaths = [f.path] := by
  obtain ⟨file⟩ := req
  cases hf
  cases outcome <;> exact ⟨rfl, rfl⟩

/-- Witness for C1: a concrete request whose backend call got no response
still has its stored file unlinked, in both handler revisions. -/
theorem upload_cleanup_unconditional_witness :
    (handleUpload ⟨some ⟨"a.mp4", "uploads/1-a.mp4", 5⟩⟩
        (.noResponse "req")).unlinkedPaths = ["uploads/1-a.mp4"] ∧
    (handleUploadV2 ⟨some ⟨"a.mp4", "uploads/1-a.mp4", 5⟩⟩
        (.noResponse "req")).unlinkedPaths = ["uploads/1-a.mp4"] :=
  upload_cleanup_unconditional _ _ _ rfl

/-- Claim C2 counterexample: the server imposes no size limit (the multer
configuration sets none and the handler never checks `req.file.size`), so a
request carrying a file strictly larger than 100 MB still reaches the
backend: the claim that the pipeline only ever receives files of at most
100 MB is false for requests that do not go through the browser client. -/
theorem oversized_file_reaches_backend :
    maxUploadBytes < 104857601 ∧
    (handleUpload ⟨some ⟨"big.mp4", "uploads/2-big.mp4", 104857601⟩⟩
        (.success (.obj []))).backendCalls = 1 :=
  ⟨by decide, rfl⟩

/-- Claim C2 (amended): the 100 MB bound is enforced client-side only —
whenever `startAnalysis` issues the /upload request, the posted file is the
chosen file and its size is at most `100 * 1024 * 1024` bytes; an oversized
file is rejected before any network activity. -/
theorem client_size_check (f g : ClientFile) (h : startAnalysis f = .uploadRequest g) :
    g = f ∧ g.size ≤ maxUploadBytes := by
  unfold startAnalysis at h
  by_cases hs : maxUploadBytes < f.size
  · rw [if_pos hs] at h
    exact absurd h (by simp)
  · rw [if_neg hs] at h
    cases h
    exact ⟨rfl, le_of_not_lt hs⟩

/-- Witness for the amended C2: a 1 KB file goes through and is within the
bound. -/
theorem client_size_check_witness :
    (⟨"ok.mp4", 1024⟩ : ClientFile) = ⟨"ok.mp4", 1024⟩ ∧
    (⟨"ok.mp4", 1024⟩ : ClientFile).size ≤ maxUploadBytes :=
  client_size_check ⟨"ok.mp4", 1024⟩ ⟨"ok.mp4", 1024⟩ rfl

/-- Claim C4: for every request carrying a video file, the handler performs
exactly one backend call, and when that call succeeds the backend's JSON
body is forwarded to the client unmodified with status 200. -/
theorem upload_single_backend_call_forwards (req : UploadRequest)
    (outcome : BackendOutcome) (f : UploadedFile) (hf : req.file = some f) :
    (handleUpload req outcome).backendCalls = 1 ∧
    ∀ d, outcome = .success d →
      (handleUpload req outcome).response.status = 200 ∧
      (handleUpload req outcome).response.body = d := by
  obtain ⟨file⟩ := req
  cases hf
  refine ⟨by cases outcome <;> rfl, ?_⟩
  rintro d rfl
  exact ⟨rfl, rfl⟩

/-- Witness for C4: a concrete successful backend call is forwarded
verbatim after exactly one invocation. -/
theorem upload_single_backend_call_forwards_witness :
    (handleUpload ⟨some ⟨"v.mp4", "uploads/5-v.mp4", 9⟩⟩
        (.success (.obj [("prediction", .str "REAL"), ("confidence", .num 90)]))).backendCalls
      = 1 ∧
    ∀ d, BackendOutcome.success (.obj [("prediction", .str "REAL"), ("confidence", .num 90)])
        = .success d →
      (handleUpload ⟨some ⟨"v.mp4", "uploads/5-v.mp4", 9⟩⟩
          (.success (.obj [("prediction", .str "REAL"), ("confidence", .num 90)]))).response.status
        = 200 ∧
      (handleUpload ⟨some ⟨"v.mp4", "uploads/5-v.mp4", 9⟩⟩
          (.success (.obj [("prediction", .str "REAL"), ("confidence", .num 90)]))).response.body
        = d :=
  upload_single_backend_call_forwards _ _ _ rfl

/-- Claim C9: when the PYTHON_API_URL environment variable is not defined,
startup logs the fatal message and exits the process with code 1 — whatever
PORT is set to — so no route is registered and the server never listens. -/
theorem missing_api_url_refuses_startup (envPort : Option Nat) :
    startServer envPort none = .exited 1 fatalEnvMessage := rfl

/-- Claim C10: a POST to /upload with no file attached is answered with
status 400 and body `{error: 'No video file was uploaded.'}`, with zero
backend calls and zero file deletions, whatever a backend call would have
returned. -/
theorem missing_file_rejected_early (outcome : BackendOutcome) :
    handleUpload { file := none } outcome =
      { response := { status := 400, body := .obj [("error", .str noFileMessage)] }
        backendCalls := 0
        unlinkedPaths := [] } := rfl

/-- Claim C3 counterexample: the handler forwards a backend error status
verbatim without constraining its class — a backend reply of 304 (axios
rejects any status outside 2xx) produces a failure response whose status is
neither a 4xx nor a 5xx code. -/
theorem backend_status_forwarded_outside_error_classes :
    (handleUpload ⟨some ⟨"v.mp4", "uploads/3-v.mp4", 7⟩⟩
        (.errorResponse 304 (.obj [("error", .str "not modified")]))).response.status = 304 ∧
    ¬((400 : Nat) ≤ 304 ∧ 304 ≤ 499) ∧ ¬((500 : Nat) ≤ 304 ∧ 304 ≤ 599) :=
  ⟨rfl, by decide, by decide⟩

/-- Claim C3 (amended): every failure response body is a JSON object with a
string `error` field (given the backend's own error field, when present, is a
string); the status is 400 for a missing file, 500 when the backend gave no
response or the request setup failed, and otherwise exactly the status the
backend itself answered with, forwarded verbatim rather than forced into the
4xx/5xx classes. -/
theorem upload_failure_response_shape (req : UploadRequest) (outcome : BackendOutcome)
    (hconf : stringErrorField outcome)
    (hfail : req.file = none ∨ ∀ d, outcome ≠ .success d) :
    (∃ s, errorString (handleUpload req outcome).response.body = some s) ∧
    ((handleUpload req outcome).response.status = 400 ∧ req.file = none ∨
     (handleUpload req outcome).response.status = 500 ∨
     ∃ st data, outcome = .errorResponse st data ∧
       (handleUpload req outcome).response.status = st) := by
  obtain ⟨file⟩ := req
  cases file with
  | none => exact ⟨⟨noFileMessage, rfl⟩, .inl ⟨rfl, rfl⟩⟩
  | some f =>
    cases outcome with
    | success d =>
      rcases hfail with hfail | hfail
      · exact absurd hfail (by simp)
      · exact absurd rfl (hfail d)
    | errorResponse st data =>
      refine ⟨?_, .inr (.inr ⟨st, data, rfl, rfl⟩)⟩
      show ∃ s, errorString (.obj [("error", backendErrorOrElse data (statusFallback st))])
        = some s
      rcases backendErrorOrElse_cases data (statusFallback st) with ⟨v, hd, ht, hv⟩ | hv
      · obtain ⟨s, rfl⟩ := hconf v hd
        rw [hv, errorString_obj]
        exact ⟨s, rfl⟩
      · rw [hv, errorString_obj]
        exact ⟨statusFallback st, rfl⟩
    | noResponse r => exact ⟨⟨noResponseMessage, rfl⟩, .inr (.inl rfl)⟩
    | setupError m => exact ⟨⟨unavailableMessage, rfl⟩, .inr (.inl rfl)⟩

/-- Witness for the amended C3: a concrete no-response failure yields a
string error field and status 500. -/
theorem upload_failure_response_shape_witness :
    (∃ s, errorString (handleUpload ⟨some ⟨"v.mp4", "uploads/4-v.mp4", 7⟩⟩
        (.noResponse "offline")).response.body = some s) ∧
    ((handleUpload ⟨some ⟨"v.mp4", "uploads/4-v.mp4", 7⟩⟩
        (.noResponse "offline")).response.status = 400 ∧
        (⟨some ⟨"v.mp4", "uploads/4-v.mp4", 7⟩⟩ : UploadRequest).file = none ∨
     (handleUpload ⟨some ⟨"v.mp4", "uploads/4-v.mp4", 7⟩⟩
        (.noResponse "offline")).response.status = 500 ∨
     ∃ st data, BackendOutcome.noResponse "offline" = .errorResponse st data ∧
       (handleUpload ⟨some ⟨"v.mp4", "uploads/4-v.mp4", 7⟩⟩
          (.noResponse "offline")).response.status = st) :=
  upload_failure_response_shape _ _ trivial (.inr fun d h => by cases h)

/-- Claim C5 (aggregator modelled from the spec, `backend/app.py` not being
among the checked-in sources): for every non-empty score list, `mean_p_fake`
times the number of scores equals the sum of the `p_fake` values (it is their
average), the label is FAKE exactly when the mean is at least 1/2 (ties
included) and REAL exactly when it is below 1/2, the confidence is the
mean-determined percentage clamped to [0,100] and rounded to two decimals,
and the resulting confidence always lies in [0,100]. -/
theorem aggregate_mean_label_confidence (scores : List FrameScore) (hne : scores ≠ []) :
    mean_p_fake scores * scores.length = (scores.map FrameScore.p_fake).sum ∧
    ((aggregate scores).label = .FAKE ↔ 1/2 ≤ mean_p_fake scores) ∧
    ((aggregate scores).label = .REAL ↔ mean_p_fake scores < 1/2) ∧
    (aggregate scores).confidence =
      round2 (clamp0100 (if 1/2 ≤ mean_p_fake scores then mean_p_fake scores * 100
                         else (1 - mean_p_fake scores) * 100)) ∧
    0 ≤ (aggregate scores).confidence ∧ (aggregate scores).confidence ≤ 100 := by
  have hlen : (scores.length : ℚ) ≠ 0 := by
    have : scores.length ≠ 0 := fun h => hne (List.length_eq_zero.mp h)
    exact_mod_cast this
  refine ⟨div_mul_cancel₀ _ hlen, ?_⟩
  unfold aggregate
  by_cases hm : 1/2 ≤ mean_p_fake scores
  · rw [if_pos hm]
    exact ⟨iff_of_true rfl hm,
           iff_of_false (fun h => Label.noConfusion h) (not_lt.mpr hm),
           by rw [if_pos hm],
           round2_nonneg (clamp0100_nonneg _),
           round2_le_100 (clamp0100_le_100 _)⟩
  · rw [if_neg hm]
    exact ⟨iff_of_false (fun h => Label.noConfusion h) hm,
           iff_of_true rfl (not_le.mp hm),
           by rw [if_neg hm],
           round2_nonneg (clamp0100_nonneg _),
           round2_le_100 (clamp0100_le_100 _)⟩

/-- Witness for C5: a score set whose mean is exactly 1/2 resolves the tie
to FAKE, and the differently-instantiated spec scenarios compute as stated —
all scores 1/10 give `REAL` with confidence 90, all scores 93/100 give
`FAKE` with confidence 93, and the tie case gives `FAKE` with confidence
50. -/
theorem aggregate_mean_label_confidence_witness :
    (mean_p_fake [⟨0, 1/2⟩] * ([⟨0, (1:ℚ)/2⟩] : List FrameScore).length
        = (([⟨0, 1/2⟩] : List FrameScore).map FrameScore.p_fake).sum ∧
     ((aggregate [⟨0, 1/2⟩]).label = .FAKE ↔ 1/2 ≤ mean_p_fake [⟨0, 1/2⟩]) ∧
     ((aggregate [⟨0, 1/2⟩]).label = .REAL ↔ mean_p_fake [⟨0, 1/2⟩] < 1/2) ∧
     (aggregate [⟨0, 1/2⟩]).confidence =
       round2 (clamp0100 (if 1/2 ≤ mean_p_fake [⟨0, 1/2⟩] then mean_p_fake [⟨0, 1/2⟩] * 100
                          else (1 - mean_p_fake [⟨0, 1/2⟩]) * 100)) ∧
     0 ≤ (aggregate [⟨0, 1/2⟩]).confidence ∧ (aggregate [⟨0, 1/2⟩]).confidence ≤ 100) ∧
    aggregate [⟨0, 1/10⟩, ⟨1, 1/10⟩] = ⟨.REAL, 90⟩ ∧
    aggregate [⟨0, 93/100⟩] = ⟨.FAKE, 93⟩ ∧
    aggregate [⟨0, 1/2⟩] = ⟨.FAKE, 50⟩ :=
  ⟨aggregate_mean_label_confidence [⟨0, 1/2⟩] (by simp),
   by simp [aggregate, mean_p_fake, round2, clamp0100, round_eq]; norm_num,
   by simp [aggregate, mean_p_fake, round2, clamp0100, round_eq]; norm_num,
   by simp [aggregate, mean_p_fake, round2, clamp0100, round_eq]; norm_num⟩

/-- Claim C6 (pipeline modelled from the spec, `backend/app.py` not being
among the checked-in sources): a decode that yields zero usable frames makes
the pipeline fail with NoDecodableFrames, and every Verdict the pipeline
returns was aggregated from a non-empty score list. -/
theorem pipeline_no_verdict_from_empty (decoded : Option (List Frame)) (score : Frame → ℚ) :
    (decoded = some [] → runPipeline decoded score = .error .NoDecodableFrames) ∧
    ∀ v, runPipeline decoded score = .ok v →
      ∃ scores : List FrameScore, scores ≠ [] ∧ v = aggregate scores := by
  constructor
  · rintro rfl
    rfl
  · intro v hv
    cases decoded with
    | none => exact absurd hv (by simp [runPipeline])
    | some frames =>
      cases frames with
      | nil => exact absurd hv (by simp [runPipeline])
      | cons f fs =>
        refine ⟨scoreFrames score (f :: fs), ?_, ?_⟩
        · have : (scoreFrames score (f :: fs)).length = fs.length + 1 := by
            rw [scoreFrames_length]
            rfl
          intro h
          rw [h] at this
          exact absurd this (by simp)
        · have : runPipeline (some (f :: fs)) score
              = .ok (aggregate (scoreFrames score (f :: fs))) := rfl
          rw [this] at hv
          injection hv with h
          exact h.symm

/-- Witness for C6: an empty decode fails with NoDecodableFrames, and a
one-frame decode returns exactly the Verdict aggregated from its one
score. -/
theorem pipeline_no_verdict_from_empty_witness :
    runPipeline (some []) (fun _ => 1/10) = .error .NoDecodableFrames ∧
    ∃ scores : List FrameScore, scores ≠ [] ∧
      aggregate (scoreFrames (fun _ => (1:ℚ)/10) [⟨0⟩]) = aggregate scores :=
  ⟨(pipeline_no_verdict_from_empty (some []) (fun _ => 1/10)).1 rfl,
   (pipeline_no_verdict_from_empty (some [⟨0⟩]) (fun _ => (1:ℚ)/10)).2 _ rfl⟩

/-- Claim C7: for every failed request (in either handler revision), any
`error` field of the response is sanitized — one of the handler's fixed
literal messages, the error value the backend itself supplied, or the
status-number fallback — and the response is entirely independent of the
internal exception details (the caught error's message and the raw request
object are only logged, never sent), so no stack trace or local file path
can cross the boundary. -/
theorem upload_error_messages_sanitized (req : UploadRequest) (outcome : BackendOutcome)
    (hfail : ∀ d, outcome ≠ .success d) :
    (∀ e, getField (handleUpload req outcome).response.body "error" = some e →
       sanitizedError outcome e) ∧
    (∀ e, getField (handleUploadV2 req outcome).response.body "error" = some e →
       sanitizedError outcome e) ∧
    (∀ m₁ m₂, handleUpload req (.setupError m₁) = handleUpload req (.setupError m₂)) ∧
    (∀ r₁ r₂, handleUpload req (.noResponse r₁) = handleUpload req (.noResponse r₂)) := by
  obtain ⟨file⟩ := req
  refine ⟨?_, ?_, ?_, ?_⟩
  · intro e he
    cases file with
    | none =>
      refine .inl ⟨noFileMessage, by simp [fixedEdgeMessages], ?_⟩
      cases he
      rfl
    | some f =>
      cases outcome with
      | success d => exact absurd rfl (hfail d)
      | errorResponse st data =>
        have he' : backendErrorOrElse data (statusFallback st) = e := by
          cases he
          rfl
        rcases backendErrorOrElse_cases data (statusFallback st) with ⟨v, hd, _, hv⟩ | hv
        · exact .inr (.inl ⟨st, data, rfl, by rw [hd, hv.symm.trans he']⟩)
        · exact .inr (.inr ⟨st, (hv.symm.trans he').symm⟩)
      | noResponse r =>
        refine .inl ⟨noResponseMessage, by simp [fixedEdgeMessages], ?_⟩
        cases he
        rfl
      | setupError m =>
        refine .inl ⟨unavailableMessage, by simp [fixedEdgeMessages], ?_⟩
        cases he
        rfl
  · intro e he
    cases file with
    | none =>
      refine .inl ⟨noFileMessage, by simp [fixedEdgeMessages], ?_⟩
      cases he
      rfl
    | some f =>
      cases outcome with
      | success d => exact absurd rfl (hfail d)
      | errorResponse st data =>
        have he' : backendErrorOrElse data unavailableMessage = e := by
          cases he
          rfl
        rcases backendErrorOrElse_cases data unavailableMessage with ⟨v, hd, _, hv⟩ | hv
        · exact .inr (.inl ⟨st, data, rfl, by rw [hd, hv.symm.trans he']⟩)
        · exact .inl ⟨unavailableMessage, by simp [fixedEdgeMessages],
            (hv.symm.trans he').symm⟩
      | noResponse r =>
        refine .inl ⟨unavailableMessage, by simp [fixedEdgeMessages], ?_⟩
        cases he
        rfl
      | setupError m =>
        refine .inl ⟨unavailableMessage, by simp [fixedEdgeMessages], ?_⟩
        cases he
        rfl
  · intro m₁ m₂
    cases file <;> rfl
  · intro r₁ r₂
    cases file <;> rfl

/-- Witness for C7: a concrete backend error response with its own message
satisfies the sanitized characterization, and the independence equations
hold at that request. -/
theorem upload_error_messages_sanitized_witness :
    (∀ e, getField (handleUpload ⟨some ⟨"w.mp4", "uploads/6-w.mp4", 3⟩⟩
        (.errorResponse 422 (.obj [("error", .str "Unreadable video")]))).response.body "error"
          = some e →
       sanitizedError (.errorResponse 422 (.obj [("error", .str "Unreadable video")])) e) ∧
    (∀ e, getField (handleUploadV2 ⟨some ⟨"w.mp4", "uploads/6-w.mp4", 3⟩⟩
        (.errorResponse 422 (.obj [("error", .str "Unreadable video")]))).response.body "error"
          = some e →
       sanitizedError (.errorResponse 422 (.obj [("error", .str "Unreadable video")])) e) ∧
    (∀ m₁ m₂, handleUpload ⟨some ⟨"w.mp4", "uploads/6-w.mp4", 3⟩⟩ (.setupError m₁)
        = handleUpload ⟨some ⟨"w.mp4", "uploads/6-w.mp4", 3⟩⟩ (.setupError m₂)) ∧
    (∀ r₁ r₂, handleUpload ⟨some ⟨"w.mp4", "uploads/6-w.mp4", 3⟩⟩ (.noResponse r₁)
        = handleUpload ⟨some ⟨"w.mp4", "uploads/6-w.mp4", 3⟩⟩ (.noResponse r₂)) :=
  upload_error_messages_sanitized _ _ (fun d h => by cases h)

/-- Claim C8 counterexample: the current renderer dereferences
`result.breakdown` unconditionally, so a well-formed success result without
a `breakdown` field is not rendered successfully — the render throws and the
client falls through to the error view. -/
theorem renderSuccess_fails_without_breakdown :
    renderSuccess { prediction := "FAKE", confidence := 93, breakdown := none }
      = .error breakdownTypeError := rfl

/-- Claim C8 (amended): the displayed verdict and confidence are determined
solely by the `prediction` and `confidence` fields — in both renderers two
results agreeing on those fields render the same verdict line, confidence
and CSS class, and the earlier renderer ignores `breakdown` entirely — but
only the earlier renderer renders a result lacking `breakdown`; the current
one requires the field to be present. -/
theorem render_depends_only_on_prediction_confidence (r₁ r₂ : SuccessResult)
    (hp : r₁.prediction = r₂.prediction) (hc : r₁.confidence = r₂.confidence) :
    (displaySuccess r₁).verdictText = (displaySuccess r₂).verdictText ∧
    (displaySuccess r₁).confidenceShown = (displaySuccess r₂).confidenceShown ∧
    (displaySuccess r₁).verdictCss = (displaySuccess r₂).verdictCss ∧
    (∀ b, displaySuccess { r₁ with breakdown := b } = displaySuccess r₁) ∧
    ∀ out₁ out₂, renderSuccess r₁ = .ok out₁ → renderSuccess r₂ = .ok out₂ →
      out₁.verdictText = out₂.verdictText ∧
      out₁.confidenceShown = out₂.confidenceShown ∧
      out₁.verdictCss = out₂.verdictCss := by
  obtain ⟨p₁, c₁, b₁⟩ := r₁
  obtain ⟨p₂, c₂, b₂⟩ := r₂
  cases hp
  cases hc
  refine ⟨rfl, rfl, rfl, fun b => rfl, ?_⟩
  intro out₁ out₂ h₁ h₂
  cases b₁ with
  | none => exact absurd h₁ (by simp [renderSuccess])
  | some items₁ =>
    cases b₂ with
    | none => exact absurd h₂ (by simp [renderSuccess])
    | some items₂ =>
      injection h₁ with h₁
      injection h₂ with h₂
      rw [← h₁, ← h₂]
      exact ⟨rfl, rfl, rfl⟩

/-- Witness for the amended C8: two concrete results agreeing on prediction
and confidence but differing in breakdown render the same verdict,
confidence and CSS class. -/
theorem render_depends_only_on_prediction_confidence_witness :
    (displaySuccess ⟨"FAKE", 93, some []⟩).verdictText
        = (displaySuccess ⟨"FAKE", 93, none⟩).verdictText ∧
    (displaySuccess ⟨"FAKE", 93, some []⟩).confidenceShown
        = (displaySuccess ⟨"FAKE", 93, none⟩).confidenceShown ∧
    (displaySuccess ⟨"FAKE", 93, some []⟩).verdictCss
        = (displaySuccess ⟨"FAKE", 93, none⟩).verdictCss ∧
    (∀ b, displaySuccess { (⟨"FAKE", 93, some []⟩ : SuccessResult) with breakdown := b }
        = displaySuccess ⟨"FAKE", 93, some []⟩) ∧
    ∀ out₁ out₂, renderSuccess ⟨"FAKE", 93, some []⟩ = .ok out₁ →
        renderSuccess ⟨"FAKE", 93, none⟩ = .ok out₂ →
      out₁.verdictText = out₂.verdictText ∧
      out₁.confidenceShown = out₂.confidenceShown ∧
      out₁.verdictCss = out₂.verdictCss :=
  render_depends_only_on_prediction_confidence ⟨"FAKE", 93, some []⟩ ⟨"FAKE", 93, none⟩ rfl rfl

end TrueFrame
